import Mathlib

/-!
Verification of the crypto twitter bot (sources: `real_bot.py`, `poster.py`,
`bot.py`, `lambda_function.py`) against its specification.

The Python sources are shallowly embedded: HTTP traffic is represented by
explicit outcome values fed to the translated control flow, prices are exact
rationals, and side effects (network calls, sleeps, file writes) are recorded
in explicit effect traces.
-/

set_option maxHeartbeats 1000000

namespace CryptoBot

/-! ## Python primitives -/

/-- Result of a Python expression that may raise: either a value or an
exception carrying its message. -/
inductive PyResult (α : Type) where
  | ok (a : α)
  | exn (msg : String)
  deriving Repr, DecidableEq

/-- Value of the digit list of a decimal numeral, `none` if empty or not all
ASCII digits. -/
def digitsVal (cs : List Char) : Option Nat :=
  if cs.isEmpty then none
  else if cs.all (fun c => c.isDigit) then
    some (cs.foldl (fun acc c => 10 * acc + (c.toNat - 48)) 0)
  else none

/-- Python `str.strip()` on a character list. -/
def pyStrip (cs : List Char) : List Char :=
  ((cs.dropWhile Char.isWhitespace).reverse.dropWhile Char.isWhitespace).reverse

/-- Python `int(s)` on a string: strip surrounding whitespace, optional sign,
then a non-empty run of decimal digits; `none` models a raised `ValueError`. -/
def pyInt (s : String) : Option Int :=
  match pyStrip s.data with
  | [] => none
  | c :: rest =>
    if c = '-' then (digitsVal rest).map (fun n => -(n : Int))
    else if c = '+' then (digitsVal rest).map (fun n => (n : Int))
    else (digitsVal (c :: rest)).map (fun n => (n : Int))

/-- Python truthiness of an optional string: `None` and `""` are falsy. -/
def py_truthy : Option String → Bool
  | none => false
  | some s => !(s == "")

/-- Python `str.lower()` (ASCII case folding). -/
def str_lower (s : String) : String :=
  String.mk (s.data.map Char.toLower)

/-- Python `pat in s` substring test. -/
def str_contains (s pat : String) : Bool :=
  (s.data.tails).any (fun t => pat.data.isPrefixOf t)

/-- Python `s.endswith(suffix)`. -/
def str_endswith (s suffix : String) : Bool :=
  suffix.data.isSuffixOf s.data

/-! ## real_bot.py — data model -/

/-- An HTTP response as observed by the bot: status code, headers (as the
dict `dict(r.headers)`, an association list with exact-key lookup), raw body
text, and the parsed JSON body when `r.json()` succeeds (`none` models a
`ValueError`); `media_id` is the `media_id_string` field of an upload
response body. -/
structure HttpResponse where
  status_code : Nat
  headers : List (String × String)
  text : String
  jsonBody : Option String
  media_id : Option String
  deriving Repr, DecidableEq

/-- Outcome of one `requests.post`/`requests.get` call: a response, or a
transport-level `requests.RequestException` with its message. -/
inductive HttpOutcome where
  | resp (r : HttpResponse)
  | exn (e : String)
  deriving Repr, DecidableEq

/-- `_rate_headers`: keep headers whose lowercased key contains "rate" or is
exactly "retry-after" or "x-rate-limit-reset". -/
def rate_headers (headers : List (String × String)) : List (String × String) :=
  headers.filter (fun kv =>
    str_contains (str_lower kv.1) "rate" ||
    str_lower kv.1 == "retry-after" ||
    str_lower kv.1 == "x-rate-limit-reset")

/-- The four Twitter credentials read from the environment; `none` models an
absent environment variable. -/
structure Creds where
  api_key : Option String
  api_secret : Option String
  access_token : Option String
  access_token_secret : Option String
  deriving Repr, DecidableEq

/-- Python `all([API_KEY, API_SECRET, ACCESS_TOKEN, ACCESS_TOKEN_SECRET])`:
every credential is present and truthy. -/
def creds_ok (c : Creds) : Bool :=
  py_truthy c.api_key && py_truthy c.api_secret &&
  py_truthy c.access_token && py_truthy c.access_token_secret

/-- Structured result dict returned by `post_tweet`; each field is `some`
exactly when the corresponding key is present in the returned dict. -/
structure PostResult where
  ok : Bool
  status_code : Option Nat
  text : Option String
  body : Option String
  rate : Option (List (String × String))
  error : Option String
  deriving Repr, DecidableEq

/-- Observable side effects of `post_tweet`: the media-upload HTTP call, the
tweet-creation HTTP call, and `time.sleep` with its duration in seconds. -/
inductive Effect where
  | http_upload
  | http_post
  | sleep (secs : Int)
  deriving Repr, DecidableEq

/-- Lines 68–72 of `real_bot.py`: the sleep value taken from `Retry-After`
when the header is truthy and parses as an integer. -/
def sleep_from_retry_after (retry_after : Option String) : Option Int :=
  if py_truthy retry_after then pyInt (retry_after.getD "") else none

/-- Lines 73–77 of `real_bot.py`: the sleep value taken from the reset
timestamp, clamped to be non-negative, when the header is truthy and parses
as an integer. -/
def sleep_from_reset (reset_ts : Option String) (now : Int) : Option Int :=
  if py_truthy reset_ts then
    match pyInt (reset_ts.getD "") with
    | some t => some (max 0 (t - now))
    | none => none
  else none

/-- The sleep duration computed on a 429 response (`real_bot.py` lines
65–79): `Retry-After` if truthy and parseable, else
`max(0, reset_ts - now)` if truthy and parseable, else
`min(60 * 2 ** (attempt - 1), 3600)`. -/
def compute_429_sleep (retry_after reset_ts : Option String) (now : Int)
    (attempt : Nat) : Int :=
  match sleep_from_retry_after retry_after with
  | some v => v
  | none =>
    match sleep_from_reset reset_ts now with
    | some v => v
    | none => min (60 * 2 ^ (attempt - 1)) 3600

/-- The `while True` post-submission loop of `post_tweet` (`real_bot.py`
lines 51–90).  `attempt` is the number of attempts already made (the Python
counter before `attempt += 1`); the list holds the outcome of each successive
`requests.post`.  Returns the structured result plus the effect trace, or
`none` when the outcome script is exhausted (the real loop always returns
within `max_retries` calls). -/
def post_loop (max_retries : Int) (now : Int) :
    Nat → List HttpOutcome → Option (PostResult × List Effect)
  | _, [] => none
  | attempt, o :: rest =>
    match o with
    | .resp r =>
      if r.status_code = 200 ∨ r.status_code = 201 then
        some ({ ok := true, status_code := some r.status_code, text := none,
                body := some (r.jsonBody.getD r.text),
                rate := some (rate_headers r.headers), error := none },
              [Effect.http_post])
      else if r.status_code = 429 then
        let sleep := compute_429_sleep (r.headers.lookup "Retry-After")
          (r.headers.lookup "x-rate-limit-reset") now (attempt + 1)
        if ((attempt : Int) + 1) ≥ max_retries then
          some ({ ok := false, status_code := some 429, text := some r.text,
                  body := none, rate := some (rate_headers r.headers),
                  error := none }, [Effect.http_post])
        else
          match post_loop max_retries now (attempt + 1) rest with
          | none => none
          | some (res, effs) =>
            some (res, Effect.http_post :: Effect.sleep sleep :: effs)
      else
        some ({ ok := false, status_code := some r.status_code,
                text := some r.text, body := none,
                rate := some (rate_headers r.headers), error := none },
              [Effect.http_post])
    | .exn e =>
      if ((attempt : Int) + 1) ≥ max_retries then
        some ({ ok := false, status_code := none, text := none, body := none,
                rate := none, error := some ("RequestException: " ++ e) },
              [Effect.http_post])
      else
        match post_loop max_retries now (attempt + 1) rest with
        | none => none
        | some (res, effs) =>
          some (res, Effect.http_post :: Effect.sleep (min (2 ^ (attempt + 1)) 60) :: effs)

/-- Environment of one `post_tweet` invocation: whether
`os.path.exists(image_path)` holds, the outcome of the media-upload request
if it is made, the outcomes of the successive tweet-creation requests, and
`int(time.time())`. -/
structure PostEnv where
  file_exists : Bool
  upload : HttpOutcome
  posts : List HttpOutcome
  now : Int

/-- `real_bot.post_tweet` (`real_bot.py` lines 22–90): credential check,
optional single-attempt media upload, then the retrying post loop.  Returns
the structured result together with the trace of network calls and sleeps. -/
def post_tweet (creds : Creds) (image_path : Option String) (env : PostEnv)
    (max_retries : Int) : Option (PostResult × List Effect) :=
  if creds_ok creds = false then
    some ({ ok := false, status_code := none, text := none, body := none,
            rate := none,
            error := some "Missing Twitter credentials in environment" }, [])
  else if py_truthy image_path && env.file_exists then
    match env.upload with
    | .exn e =>
      some ({ ok := false, status_code := none, text := none, body := none,
              rate := none,
              error := some ("Image upload exception: " ++ e) },
            [Effect.http_upload])
    | .resp r =>
      if r.status_code = 200 then
        match post_loop max_retries env.now 0 env.posts with
        | none => none
        | some (res, effs) => some (res, Effect.http_upload :: effs)
      else
        some ({ ok := false, status_code := some r.status_code,
                text := some r.text, body := none,
                rate := some (rate_headers r.headers), error := none },
              [Effect.http_upload])
  else
    post_loop max_retries env.now 0 env.posts

/-! ## poster.py / lambda_function.py — market data model -/

/-- One raw kline row as used by the code (indices 0–6 of the Binance kline
list); prices are exact rationals standing for the parsed floats. -/
structure Candle where
  open_time : Int
  open_price : ℚ
  high_price : ℚ
  low_price : ℚ
  close_price : ℚ
  volume : ℚ
  close_time : Int
  deriving Repr, DecidableEq

/-- The dict returned by `calculate_hourly_change` (the poster variant also
carries the raw candles; those are kept on the `Candidate` instead). -/
structure GainInfo where
  open_price : ℚ
  close_price : ℚ
  high_price : ℚ
  low_price : ℚ
  change_percent : ℚ
  close_time : Int
  deriving Repr, DecidableEq

/-- `calculate_hourly_change` (`poster.py` lines 58–78, `lambda_function.py`
lines 56–81): absent for fewer than 2 candles, reads the second-to-last
candle, absent when its open price is exactly 0, else the percentage change
`(close - open) / open * 100`. -/
def calculate_hourly_change (candles : List Candle) : Option GainInfo :=
  if candles.length < 2 then none
  else
    match candles[candles.length - 2]? with
    | none => none
    | some last_candle =>
      if last_candle.open_price = 0 then none
      else
        some { open_price := last_candle.open_price,
               close_price := last_candle.close_price,
               high_price := last_candle.high_price,
               low_price := last_candle.low_price,
               change_percent :=
                 (last_candle.close_price - last_candle.open_price) /
                   last_candle.open_price * 100,
               close_time := last_candle.close_time }

/-- One entry of the 24hr ticker snapshot, with the fields the code reads. -/
structure Ticker where
  symbol : String
  quoteVolume : ℚ
  deriving Repr, DecidableEq

/-- Outcome of the snapshot fetch: the parsed ticker list on HTTP success, or
`fail` for a network error / non-success status (both produce `[]`). -/
inductive FetchOutcome (α : Type) where
  | ok (a : α)
  | fail
  deriving Repr, DecidableEq

/-- `get_top_100_symbols` (`poster.py` lines 35–46): on failure return `[]`;
else keep the USDT pairs, sort them descending by quote volume (stable), and
take the first 100. -/
def get_top_100_symbols (out : FetchOutcome (List Ticker)) : List Ticker :=
  match out with
  | .fail => []
  | .ok tickers =>
    let usdt_pairs := tickers.filter (fun t => str_endswith t.symbol "USDT")
    (usdt_pairs.mergeSort
      (fun a b => decide (b.quoteVolume ≤ a.quoteVolume))).take 100

/-- `get_binance_chart_url`. -/
def get_binance_chart_url (symbol : String) : String :=
  "https://www.binance.com/en/trade/" ++ symbol.replace "USDT" "" ++ "_USDT"

/-- A candidate appended to `results` in `find_biggest_green_candle`: the
coin name, the full pair symbol, the gain info, and the raw candles. -/
structure Candidate where
  symbol : String
  full_symbol : String
  gain : GainInfo
  candles : List Candle
  deriving Repr, DecidableEq

/-- The per-symbol scan loop of `find_biggest_green_candle` (`poster.py`
lines 184–195): for each ticker, fetch candles (`none` = fetch failure,
`[]` is also falsy in `if candles:`), compute the gain, and keep the
candidate exactly when the change is positive.  `fetch` gives each symbol's
candle-fetch result. -/
def scan_candidates (symbols : List Ticker)
    (fetch : String → Option (List Candle)) : List Candidate :=
  symbols.filterMap (fun ticker =>
    match fetch ticker.symbol with
    | none => none
    | some candles =>
      if candles.isEmpty then none
      else
        match calculate_hourly_change candles with
        | none => none
        | some info =>
          if 0 < info.change_percent then
            some { symbol := ticker.symbol.replace "USDT" "",
                   full_symbol := ticker.symbol,
                   gain := info, candles := candles }
          else none)

/-- The descending, stable comparison used by
`results.sort(key=lambda x: x['change_percent'], reverse=True)`. -/
def cand_le (a b : Candidate) : Bool :=
  decide (b.gain.change_percent ≤ a.gain.change_percent)

/-- `compose_tweet`: the fixed tweet template built from the winner
(`poster.py` lines 204–212). -/
def compose_tweet (winner : Candidate) : String :=
  "🚀 Biggest Hourly Gainer\n\n" ++
  winner.symbol ++ " ⬆️ +" ++ toString winner.gain.change_percent ++ "%\n" ++
  "📊 Chart: " ++ get_binance_chart_url winner.full_symbol ++ "\n\n" ++
  "💰 $" ++ toString winner.gain.open_price ++ " → $" ++
    toString winner.gain.close_price ++ "\n" ++
  "📈 High: $" ++ toString winner.gain.high_price ++ "\n" ++
  "⏰ " ++ toString winner.gain.close_time ++ " UTC\n\n" ++
  "$" ++ winner.symbol ++ " #Crypto #Binance"

/-- `find_biggest_green_candle` (`poster.py` lines 177–214): abort on an
empty symbol list, scan all symbols, abort when no positive candidate, else
stable-sort descending by change and return the head plus the composed
tweet. -/
def find_biggest_green_candle (symbols : List Ticker)
    (fetch : String → Option (List Candle)) : Option (Candidate × String) :=
  if symbols.isEmpty then none
  else
    let results := scan_candidates symbols fetch
    if results.isEmpty then none
    else
      match (results.mergeSort cand_le).head? with
      | none => none
      | some winner => some (winner, compose_tweet winner)

/-! ## Entry points -/

/-- Side effects of one poster run: the chart file write (`plt.savefig`) and
the tweet post. -/
inductive RunEffect where
  | chart_write
  | tweet_post (text : String)
  deriving Repr, DecidableEq

/-- `bot.is_dry_run` (`bot.py` lines 35–37): default `"true"`, lowercase,
dry-run unless the value is one of `false`/`0`/`no`/`off`. -/
def is_dry_run (env : Option String) : Bool :=
  !(["false", "0", "no", "off"].contains (str_lower (env.getD "true")))

/-- The dry-run computation of `poster.main` (`poster.py` line 226): same
string test but with default `"false"`. -/
def poster_dry_run (env : Option String) : Bool :=
  !(["false", "0", "no", "off"].contains (str_lower (env.getD "false")))

/-- Environment of one `poster.main` run: snapshot fetch outcome, per-symbol
candle fetch results, whether chart creation succeeds (its own exceptions
are caught inside and yield `None`), the `DRY_RUN` variable, whether
`real_bot.post_tweet` is importable, and the outcome of the posting call. -/
structure PosterWorld where
  tickers : FetchOutcome (List Ticker)
  fetch : String → Option (List Candle)
  chart_ok : Bool
  dry_env : Option String
  real_bot_ok : Bool
  post_outcome : PyResult PostResult

/-- `poster.main` (`poster.py` lines 216–245): find the winner (abort when
absent), create the chart, honor `DRY_RUN`, and post via `real_bot` when
available; the whole body sits in a `try`/`except` that logs and returns, so
every path returns normally. -/
def poster_main (w : PosterWorld) : PyResult Unit × List RunEffect :=
  match find_biggest_green_candle (get_top_100_symbols w.tickers) w.fetch with
  | none => (.ok (), [])
  | some (_, tweet_text) =>
    if tweet_text == "" then (.ok (), [])
    else
      let chart_effects := if w.chart_ok then [RunEffect.chart_write] else []
      if poster_dry_run w.dry_env then (.ok (), chart_effects)
      else if w.real_bot_ok then
        match w.post_outcome with
        | .ok _ => (.ok (), chart_effects ++ [RunEffect.tweet_post tweet_text])
        | .exn _ => (.ok (), chart_effects ++ [RunEffect.tweet_post tweet_text])
      else (.ok (), chart_effects)

/-- `bot.main` (`bot.py` lines 44–79): return immediately in dry-run mode;
otherwise call `real_bot.post_tweet` (when importable) or the example
helper, and on an exception from either, log and re-raise (`raise`). -/
def bot_main (dry_env : Option String) (has_real_bot : Bool)
    (real_post : PyResult PostResult) (example_post : PyResult PostResult) :
    PyResult Unit :=
  if is_dry_run dry_env then .ok ()
  else if has_real_bot then
    match real_post with
    | .ok _ => .ok ()
    | .exn e => .exn e
  else
    match example_post with
    | .ok _ => .ok ()
    | .exn e => .exn e

/-! ## lambda_function.py -/

/-- The dict returned by `lambda_handler`; `message` is the string inside the
JSON-encoded body. -/
structure LambdaResponse where
  statusCode : Nat
  message : String
  deriving Repr, DecidableEq

/-- `lambda_function.post_tweet` (lines 150–175): `True` exactly when the
request returns, has status 201, and the body carries the tweet id
(`body_has_id`); any exception is caught and yields `False`. -/
def lambda_post_tweet (outcome : HttpOutcome) (body_has_id : Bool) : Bool :=
  match outcome with
  | .resp r => if r.status_code = 201 then body_has_id else false
  | .exn _ => false

/-- The body of `lambda_handler`'s `try` block (lines 180–203): it may
re-raise whatever `find_biggest_green_candle` raises. -/
def lambda_handler_body (find_outcome : PyResult (Option (Candidate × String)))
    (post_outcome : HttpOutcome) (body_has_id : Bool) :
    PyResult LambdaResponse :=
  match find_outcome with
  | .exn e => .exn e
  | .ok none => .ok { statusCode := 200, message := "No data to post" }
  | .ok (some (_, tweet_text)) =>
    if tweet_text == "" then
      .ok { statusCode := 200, message := "No data to post" }
    else if lambda_post_tweet post_outcome body_has_id then
      .ok { statusCode := 200, message := "Tweet posted successfully" }
    else
      .ok { statusCode := 500, message := "Failed to post tweet" }

/-- `lambda_handler` (`lambda_function.py` lines 177–210): the body wrapped
in `try`/`except`, turning any exception into a 500 response. -/
def lambda_handler (find_outcome : PyResult (Option (Candidate × String)))
    (post_outcome : HttpOutcome) (body_has_id : Bool) : LambdaResponse :=
  match lambda_handler_body find_outcome post_outcome body_has_id with
  | .ok resp => resp
  | .exn e => { statusCode := 500, message := "Error: " ++ e }

/-! ## Helper lemmas -/

/-- `int("")` raises in Python. -/
theorem pyInt_empty : pyInt "" = none := rfl

/-- A string that parses as an integer is non-empty, hence truthy. -/
theorem py_truthy_of_pyInt (s : String) (v : Int) (h : pyInt s = some v) :
    py_truthy (some s) = true := by
  have hne : s ≠ "" := by
    intro he
    rw [he, pyInt_empty] at h
    exact Option.noConfusion h
  simp [py_truthy, hne]

/-- The `Retry-After` branch yields nothing when the header is absent or
does not parse. -/
theorem sleep_from_retry_after_none (ra : Option String)
    (h : ra = none ∨ ∃ s, ra = some s ∧ pyInt s = none) :
    sleep_from_retry_after ra = none := by
  rcases h with h | ⟨s, hs, hp⟩
  · simp [h, sleep_from_retry_after, py_truthy]
  · subst hs
    by_cases he : s = ""
    · simp [sleep_from_retry_after, he, py_truthy]
    · simp [sleep_from_retry_after, py_truthy, he, hp]

/-- The reset-timestamp branch yields nothing when the header is absent or
does not parse. -/
theorem sleep_from_reset_none (rs : Option String) (now : Int)
    (h : rs = none ∨ ∃ t, rs = some t ∧ pyInt t = none) :
    sleep_from_reset rs now = none := by
  rcases h with h | ⟨t, ht, hp⟩
  · simp [h, sleep_from_reset, py_truthy]
  · subst ht
    by_cases he : t = ""
    · simp [sleep_from_reset, he, py_truthy]
    · simp [sleep_from_reset, py_truthy, he, hp]

/-- Priority case (a): a truthy, parseable `Retry-After` wins. -/
theorem compute_429_sleep_retry_after (ra rs : Option String) (now : Int)
    (attempt : Nat) (s : String) (v : Int) (hra : ra = some s)
    (hp : pyInt s = some v) :
    compute_429_sleep ra rs now attempt = v := by
  subst hra
  simp [compute_429_sleep, sleep_from_retry_after,
    py_truthy_of_pyInt s v hp, hp]

/-- Priority case (b): with `Retry-After` unusable, a truthy parseable reset
timestamp gives `max 0 (reset - now)`. -/
theorem compute_429_sleep_reset (ra rs : Option String) (now : Int)
    (attempt : Nat) (t : String) (v : Int)
    (hra : ra = none ∨ ∃ s, ra = some s ∧ pyInt s = none)
    (hrs : rs = some t) (hp : pyInt t = some v) :
    compute_429_sleep ra rs now attempt = max 0 (v - now) := by
  subst hrs
  simp [compute_429_sleep, sleep_from_retry_after_none ra hra,
    sleep_from_reset, py_truthy_of_pyInt t v hp, hp]

/-- Priority case (c): with both headers unusable, the exponential fallback
`min (60 * 2 ^ (attempt - 1)) 3600` applies. -/
theorem compute_429_sleep_fallback (ra rs : Option String) (now : Int)
    (attempt : Nat)
    (hra : ra = none ∨ ∃ s, ra = some s ∧ pyInt s = none)
    (hrs : rs = none ∨ ∃ t, rs = some t ∧ pyInt t = none) :
    compute_429_sleep ra rs now attempt = min (60 * 2 ^ (attempt - 1)) 3600 := by
  simp [compute_429_sleep, sleep_from_retry_after_none ra hra,
    sleep_from_reset_none rs now hrs]

/-! ## C1 -/

/-- C1: on a 429 response with the attempt counter at the configured
maximum, the post loop terminates with a FAILURE result carrying status 429,
the response body text, and the rate-limit header snapshot, and the effect
trace of the final attempt holds no sleep — only the HTTP call itself. -/
theorem post_loop_429_at_max (max_retries now : Int) (attempt : Nat)
    (r : HttpResponse) (rest : List HttpOutcome)
    (h429 : r.status_code = 429)
    (hmax : (attempt : Int) + 1 ≥ max_retries) :
    post_loop max_retries now attempt (HttpOutcome.resp r :: rest) =
      some ({ ok := false, status_code := some 429, text := some r.text,
              body := none, rate := some (rate_headers r.headers),
              error := none }, [Effect.http_post]) := by
  simp [post_loop, h429, hmax]

/-- A 429 response kept by `_rate_headers`. -/
def r429_example : HttpResponse :=
  { status_code := 429, headers := [("Retry-After", "2")],
    text := "Too Many Requests", jsonBody := none, media_id := none }

/-- Witness for C1 at attempt 5 of 5. -/
theorem post_loop_429_at_max_witness :
    ((4 : Int) + 1 ≥ 5) ∧
    post_loop 5 0 4 [HttpOutcome.resp r429_example] =
      some ({ ok := false, status_code := some 429,
              text := some r429_example.text, body := none,
              rate := some (rate_headers r429_example.headers),
              error := none }, [Effect.http_post]) :=
  ⟨by norm_num, post_loop_429_at_max 5 0 4 r429_example [] rfl (by norm_num)⟩

/-! ## C2 -/

/-- C2: on a 429 response with the attempt counter below the maximum, the
loop sleeps the computed duration and retries with the next outcome; the
duration is, in priority order, the parsed `Retry-After` seconds, else
`max 0 (reset - now)`, else `min (60 * 2 ^ (attempt - 1)) 3600` (the retry
being attempt number `attempt + 1`, the exponent is `attempt`). -/
theorem post_loop_429_below_max (max_retries now : Int) (attempt : Nat)
    (r : HttpResponse) (rest : List HttpOutcome)
    (h429 : r.status_code = 429)
    (hlt : (attempt : Int) + 1 < max_retries) :
    post_loop max_retries now attempt (HttpOutcome.resp r :: rest) =
      (post_loop max_retries now (attempt + 1) rest).map
        (fun p => (p.1, Effect.http_post ::
          Effect.sleep (compute_429_sleep (r.headers.lookup "Retry-After")
            (r.headers.lookup "x-rate-limit-reset") now (attempt + 1)) ::
          p.2)) ∧
    (∀ s v, r.headers.lookup "Retry-After" = some s → pyInt s = some v →
      compute_429_sleep (r.headers.lookup "Retry-After")
        (r.headers.lookup "x-rate-limit-reset") now (attempt + 1) = v) ∧
    (∀ t v,
      (r.headers.lookup "Retry-After" = none ∨
        ∃ s, r.headers.lookup "Retry-After" = some s ∧ pyInt s = none) →
      r.headers.lookup "x-rate-limit-reset" = some t → pyInt t = some v →
      compute_429_sleep (r.headers.lookup "Retry-After")
        (r.headers.lookup "x-rate-limit-reset") now (attempt + 1) =
        max 0 (v - now)) ∧
    ((r.headers.lookup "Retry-After" = none ∨
        ∃ s, r.headers.lookup "Retry-After" = some s ∧ pyInt s = none) →
      (r.headers.lookup "x-rate-limit-reset" = none ∨
        ∃ t, r.headers.lookup "x-rate-limit-reset" = some t ∧ pyInt t = none) →
      compute_429_sleep (r.headers.lookup "Retry-After")
        (r.headers.lookup "x-rate-limit-reset") now (attempt + 1) =
        min (60 * 2 ^ attempt) 3600) := by
  refine ⟨?_, ?_, ?_, ?_⟩
  · have hnot : ¬ ((attempt : Int) + 1 ≥ max_retries) := not_le.mpr hlt
    simp only [post_loop, h429]
    norm_num
    rw [if_neg hnot]
    cases hrec : post_loop max_retries now (attempt + 1) rest with
    | none => rfl
    | some p => cases p with | mk res effs => rfl
  · intro s v hs hp
    exact compute_429_sleep_retry_after _ _ now (attempt + 1) s v hs hp
  · intro t v hra hrs hp
    exact compute_429_sleep_reset _ _ now (attempt + 1) t v hra hrs hp
  · intro hra hrs
    have h := compute_429_sleep_fallback (r.headers.lookup "Retry-After")
      (r.headers.lookup "x-rate-limit-reset") now (attempt + 1) hra hrs
    simpa using h

/-- Witness for C2: a 429 with `Retry-After: 2` at attempt 1 of 5 sleeps 2
seconds then retries. -/
theorem post_loop_429_below_max_witness :
    ((0 : Int) + 1 < 5) ∧
    (post_loop 5 0 0 [HttpOutcome.resp r429_example] =
      (post_loop 5 0 1 []).map
        (fun p => (p.1, Effect.http_post ::
          Effect.sleep (compute_429_sleep
            (r429_example.headers.lookup "Retry-After")
            (r429_example.headers.lookup "x-rate-limit-reset") 0 1) ::
          p.2)) ∧
      compute_429_sleep (r429_example.headers.lookup "Retry-After")
        (r429_example.headers.lookup "x-rate-limit-reset") 0 1 = 2) := by
  have h := post_loop_429_below_max 5 0 0 r429_example [] rfl (by norm_num)
  exact ⟨by norm_num, h.1, h.2.1 "2" 2 rfl rfl⟩

/-! ## C3 -/

/-- C3: on a transport-level exception, the loop terminates with a FAILURE
result carrying the exception message when the attempt counter has reached
the maximum, and otherwise sleeps `min (2 ^ attempt) 60` seconds (the
current attempt being number `attempt + 1`) and retries. -/
theorem post_loop_exception (max_retries now : Int) (attempt : Nat)
    (e : String) (rest : List HttpOutcome) :
    (((attempt : Int) + 1 ≥ max_retries) →
      post_loop max_retries now attempt (HttpOutcome.exn e :: rest) =
        some ({ ok := false, status_code := none, text := none, body := none,
                rate := none, error := some ("RequestException: " ++ e) },
              [Effect.http_post])) ∧
    (((attempt : Int) + 1 < max_retries) →
      post_loop max_retries now attempt (HttpOutcome.exn e :: rest) =
        (post_loop max_retries now (attempt + 1) rest).map
          (fun p => (p.1, Effect.http_post ::
            Effect.sleep (min (2 ^ (attempt + 1)) 60) :: p.2))) := by
  constructor
  · intro hge
    simp [post_loop, hge]
  · intro hlt
    have hnot : ¬ ((attempt : Int) + 1 ≥ max_retries) := not_le.mpr hlt
    simp only [post_loop]
    rw [if_neg hnot]
    cases hrec : post_loop max_retries now (attempt + 1) rest with
    | none => rfl
    | some p => cases p with | mk res effs => rfl

/-- Witness for C3 at attempt 5 of 5: terminal FAILURE with the exception
message, and at attempt 1 of 5: sleep `min (2 ^ 1) 60 = 2` and retry. -/
theorem post_loop_exception_witness :
    (((4 : Int) + 1 ≥ 5) ∧
      post_loop 5 0 4 [HttpOutcome.exn "Connection refused"] =
        some ({ ok := false, status_code := none, text := none, body := none,
                rate := none,
                error := some ("RequestException: " ++ "Connection refused") },
              [Effect.http_post])) ∧
    (((0 : Int) + 1 < 5) ∧
      post_loop 5 0 0 [HttpOutcome.exn "Connection refused"] =
        (post_loop 5 0 1 []).map
          (fun p => (p.1, Effect.http_post ::
            Effect.sleep (min (2 ^ (0 + 1)) 60) :: p.2))) :=
  ⟨⟨by norm_num,
    (post_loop_exception 5 0 4 "Connection refused" []).1 (by norm_num)⟩,
   ⟨by norm_num,
    (post_loop_exception 5 0 0 "Connection refused" []).2 (by norm_num)⟩⟩

/-! ## C4 -/

/-- C4: when any of the four credential environment values is absent,
`post_tweet` returns the missing-credentials FAILURE with an empty effect
trace: no HTTP request at all, the media upload included. -/
theorem post_tweet_missing_credentials (creds : Creds)
    (image_path : Option String) (env : PostEnv) (max_retries : Int)
    (h : creds.api_key = none ∨ creds.api_secret = none ∨
      creds.access_token = none ∨ creds.access_token_secret = none) :
    post_tweet creds image_path env max_retries =
      some ({ ok := false, status_code := none, text := none, body := none,
              rate := none,
              error := some "Missing Twitter credentials in environment" },
            []) := by
  have hok : creds_ok creds = false := by
    rcases h with h | h | h | h <;> simp [creds_ok, h, py_truthy]
  simp [post_tweet, hok]

/-- Witness for C4: a missing API key short-circuits with no effects. -/
theorem post_tweet_missing_credentials_witness :
    ((Creds.mk none (some "s") (some "t") (some "u")).api_key = none ∨
      (Creds.mk none (some "s") (some "t") (some "u")).api_secret = none ∨
      (Creds.mk none (some "s") (some "t") (some "u")).access_token = none ∨
      (Creds.mk none (some "s") (some "t") (some "u")).access_token_secret = none) ∧
    post_tweet (Creds.mk none (some "s") (some "t") (some "u"))
        (some "chart.png")
        { file_exists := true, upload := HttpOutcome.exn "net down",
          posts := [], now := 0 } 5 =
      some ({ ok := false, status_code := none, text := none, body := none,
              rate := none,
              error := some "Missing Twitter credentials in environment" },
            []) :=
  ⟨Or.inl rfl,
   post_tweet_missing_credentials (Creds.mk none (some "s") (some "t") (some "u"))
     (some "chart.png")
     { file_exists := true, upload := HttpOutcome.exn "net down",
       posts := [], now := 0 } 5 (Or.inl rfl)⟩

/-! ## C6 -/

/-- C6: the gain calculator returns absent for fewer than 2 candles and for
a zero open price on the second-to-last candle; otherwise it returns the
second-to-last candle's open/close/high/low/close-time with
`change_percent = (close - open) / open * 100`. -/
theorem calculate_hourly_change_spec (candles : List Candle) :
    (candles.length < 2 → calculate_hourly_change candles = none) ∧
    (∀ lc, 2 ≤ candles.length → candles[candles.length - 2]? = some lc →
      (lc.open_price = 0 → calculate_hourly_change candles = none) ∧
      (lc.open_price ≠ 0 → calculate_hourly_change candles =
        some { open_price := lc.open_price, close_price := lc.close_price,
               high_price := lc.high_price, low_price := lc.low_price,
               change_percent :=
                 (lc.close_price - lc.open_price) / lc.open_price * 100,
               close_time := lc.close_time })) := by
  constructor
  · intro h
    simp [calculate_hourly_change, h]
  · intro lc hlen hget
    have hnot : ¬ candles.length < 2 := not_lt.mpr hlen
    constructor
    · intro hz
      simp [calculate_hourly_change, hnot, hget, hz]
    · intro hz
      simp [calculate_hourly_change, hnot, hget, hz]

/-- A closed green candle: open 100, close 110. -/
def candle_green : Candle :=
  { open_time := 0, open_price := 100, high_price := 112, low_price := 99,
    close_price := 110, volume := 5, close_time := 3600000 }

/-- A still-accumulating candle, ignored by the calculator. -/
def candle_forming : Candle :=
  { open_time := 3600000, open_price := 110, high_price := 111,
    low_price := 109, close_price := 109, volume := 1, close_time := 7200000 }

/-- Witness for C6: `[candle_green, candle_forming]` yields a 10% gain from
the second-to-last candle, and a single candle yields absent. -/
theorem calculate_hourly_change_spec_witness :
    (([candle_forming] : List Candle).length < 2 ∧
      calculate_hourly_change [candle_forming] = none) ∧
    (2 ≤ ([candle_green, candle_forming] : List Candle).length ∧
      [candle_green, candle_forming][([candle_green, candle_forming] : List Candle).length - 2]? =
        some candle_green ∧
      candle_green.open_price ≠ 0 ∧
      calculate_hourly_change [candle_green, candle_forming] =
        some { open_price := candle_green.open_price,
               close_price := candle_green.close_price,
               high_price := candle_green.high_price,
               low_price := candle_green.low_price,
               change_percent :=
                 (candle_green.close_price - candle_green.open_price) /
                   candle_green.open_price * 100,
               close_time := candle_green.close_time }) :=
  ⟨⟨by norm_num,
    (calculate_hourly_change_spec [candle_forming]).1 (by norm_num)⟩,
   ⟨by norm_num, rfl, by norm_num [candle_green],
    ((calculate_hourly_change_spec [candle_green, candle_forming]).2
      candle_green (by norm_num) rfl).2 (by norm_num [candle_green])⟩⟩

/-! ## C7 -/

/-- The descending comparison is transitive. -/
theorem cand_le_trans : ∀ a b c : Candidate,
    cand_le a b → cand_le b c → cand_le a c := by
  intro a b c hab hbc
  simp only [cand_le, decide_eq_true_eq] at hab hbc ⊢
  exact le_trans hbc hab

/-- The descending comparison is total. -/
theorem cand_le_total : ∀ a b : Candidate, cand_le a b || cand_le b a := by
  intro a b
  simp only [cand_le, Bool.or_eq_true, decide_eq_true_eq]
  exact le_total _ _

/-- The head of the stable descending sort is a member attaining the maximum
change, and it is the first-seen element among those attaining it: every
earlier element has strictly smaller change. -/
theorem head_mergeSort_first_max (l : List Candidate) (w : Candidate)
    (h : (l.mergeSort cand_le).head? = some w) :
    w ∈ l ∧ (∀ c ∈ l, c.gain.change_percent ≤ w.gain.change_percent) ∧
    ∃ pre post, l = pre ++ w :: post ∧
      ∀ c ∈ pre, c.gain.change_percent < w.gain.change_percent := by
  induction l generalizing w with
  | nil => simp at h
  | cons a rest ih =>
    obtain ⟨l₁, l₂, h₁, h₂, h₃⟩ :=
      List.mergeSort_cons cand_le_trans cand_le_total a rest
    cases l₁ with
    | nil =>
      rw [h₁] at h
      simp only [List.nil_append, List.head?_cons, Option.some.injEq] at h
      subst h
      have hs := List.sorted_mergeSort cand_le_trans cand_le_total (a :: rest)
      rw [h₁] at hs
      simp only [List.nil_append, List.pairwise_cons] at hs
      refine ⟨List.mem_cons_self a rest, ?_, [], rest, rfl, by simp⟩
      intro c hc
      rcases List.mem_cons.mp hc with hc | hc
      · subst hc; exact le_refl _
      · have hc₂ : c ∈ l₂ := by
          have : c ∈ rest.mergeSort cand_le := List.mem_mergeSort.mpr hc
          rwa [h₂, List.nil_append] at this
        have := hs.1 c hc₂
        simpa [cand_le, decide_eq_true_eq] using this
    | cons b l₁' =>
      rw [h₁] at h
      simp only [List.cons_append, List.head?_cons, Option.some.injEq] at h
      subst h
      have hhead : (rest.mergeSort cand_le).head? = some b := by
        rw [h₂]; rfl
      obtain ⟨hmem, hbound, pre, post, heq, hstrict⟩ := ih b hhead
      have hlt : a.gain.change_percent < b.gain.change_percent := by
        have := h₃ b (List.mem_cons_self b l₁')
        simp only [cand_le, Bool.not_eq_true', decide_eq_false_iff_not,
          not_le] at this
        exact this
      refine ⟨List.mem_cons_of_mem a hmem, ?_, a :: pre, post,
        by rw [heq, List.cons_append], ?_⟩
      · intro c hc
        rcases List.mem_cons.mp hc with hc | hc
        · subst hc; exact le_of_lt hlt
        · exact hbound c hc
      · intro c hc
        rcases List.mem_cons.mp hc with hc | hc
        · subst hc; exact hlt
        · exact hstrict c hc

/-- Every candidate kept by the scan has strictly positive change. -/
theorem scan_candidates_pos (symbols : List Ticker)
    (fetch : String → Option (List Candle)) :
    ∀ c ∈ scan_candidates symbols fetch, 0 < c.gain.change_percent := by
  intro c hc
  simp only [scan_candidates, List.mem_filterMap] at hc
  obtain ⟨t, -, ht⟩ := hc
  cases hf : fetch t.symbol with
  | none => rw [hf] at ht; cases ht
  | some candles =>
    rw [hf] at ht
    dsimp only at ht
    by_cases he : candles.isEmpty
    · rw [if_pos he] at ht; cases ht
    · rw [if_neg he] at ht
      cases hcalc : calculate_hourly_change candles with
      | none => rw [hcalc] at ht; cases ht
      | some info =>
        rw [hcalc] at ht
        dsimp only at ht
        by_cases hpos : 0 < info.change_percent
        · rw [if_pos hpos] at ht
          cases ht
          exact hpos
        · rw [if_neg hpos] at ht; cases ht

/-- C7: any winner returned by `find_biggest_green_candle` has strictly
positive change, belongs to the scanned candidate list, attains the maximum
change over it, and is the first-seen candidate among the tied maximum. -/
theorem find_biggest_green_candle_spec (symbols : List Ticker)
    (fetch : String → Option (List Candle)) (w : Candidate) (tweet : String)
    (h : find_biggest_green_candle symbols fetch = some (w, tweet)) :
    0 < w.gain.change_percent ∧
    w ∈ scan_candidates symbols fetch ∧
    (∀ c ∈ scan_candidates symbols fetch,
      c.gain.change_percent ≤ w.gain.change_percent) ∧
    ∃ pre post, scan_candidates symbols fetch = pre ++ w :: post ∧
      ∀ c ∈ pre, c.gain.change_percent < w.gain.change_percent := by
  simp only [find_biggest_green_candle] at h
  by_cases hs : symbols.isEmpty
  · rw [if_pos hs] at h; cases h
  · rw [if_neg hs] at h
    by_cases hr : (scan_candidates symbols fetch).isEmpty
    · rw [if_pos hr] at h; cases h
    · rw [if_neg hr] at h
      cases hh : ((scan_candidates symbols fetch).mergeSort cand_le).head? with
      | none => rw [hh] at h; cases h
      | some winner =>
        rw [hh] at h
        dsimp only at h
        simp only [Option.some.injEq, Prod.mk.injEq] at h
        obtain ⟨hw, -⟩ := h
        subst hw
        obtain ⟨hmem, hbound, pre, post, heq, hstrict⟩ :=
          head_mergeSort_first_max (scan_candidates symbols fetch) winner hh
        exact ⟨scan_candidates_pos symbols fetch winner hmem, hmem, hbound,
          pre, post, heq, hstrict⟩

/-- The single ticker used by the C7 witness. -/
def ticker_w : Ticker := { symbol := "AAAUSDT", quoteVolume := 1 }

/-- The candle fetch used by the C7 witness. -/
def fetch_w : String → Option (List Candle) :=
  fun _ => some [candle_green, candle_forming]

/-- The candidate the C7 witness scan produces. -/
def cand_w : Candidate :=
  { symbol := "AAAUSDT".replace "USDT" "", full_symbol := "AAAUSDT",
    gain := { open_price := candle_green.open_price,
              close_price := candle_green.close_price,
              high_price := candle_green.high_price,
              low_price := candle_green.low_price,
              change_percent :=
                (candle_green.close_price - candle_green.open_price) /
                  candle_green.open_price * 100,
              close_time := candle_green.close_time },
    candles := [candle_green, candle_forming] }

/-- Witness for C7 on a one-symbol market with a +10% closed candle. -/
theorem find_biggest_green_candle_spec_witness :
    find_biggest_green_candle [ticker_w] fetch_w =
      some (cand_w, compose_tweet cand_w) ∧
    (0 < cand_w.gain.change_percent ∧
      cand_w ∈ scan_candidates [ticker_w] fetch_w ∧
      (∀ c ∈ scan_candidates [ticker_w] fetch_w,
        c.gain.change_percent ≤ cand_w.gain.change_percent) ∧
      ∃ pre post, scan_candidates [ticker_w] fetch_w = pre ++ cand_w :: post ∧
        ∀ c ∈ pre, c.gain.change_percent < cand_w.gain.change_percent) := by
  have hscan : scan_candidates [ticker_w] fetch_w = [cand_w] := by
    simp only [scan_candidates, List.filterMap_cons, List.filterMap_nil]
    norm_num [fetch_w, ticker_w, calculate_hourly_change, candle_green,
      candle_forming, cand_w]
  have hfind : find_biggest_green_candle [ticker_w] fetch_w =
      some (cand_w, compose_tweet cand_w) := by
    simp only [find_biggest_green_candle, hscan]
    simp
  exact ⟨hfind,
    find_biggest_green_candle_spec [ticker_w] fetch_w cand_w
      (compose_tweet cand_w) hfind⟩

/-! ## C8 -/

/-- C8: a failed snapshot fetch yields the empty symbol list, and whenever
the snapshot yields an empty symbol list the poster run ends normally with
an empty effect trace: no chart file write and no post. -/
theorem poster_main_empty_snapshot (w : PosterWorld)
    (h : get_top_100_symbols w.tickers = []) :
    poster_main w = (.ok (), []) ∧
    get_top_100_symbols (FetchOutcome.fail) = ([] : List Ticker) := by
  refine ⟨?_, rfl⟩
  have hfind : find_biggest_green_candle (get_top_100_symbols w.tickers)
      w.fetch = none := by
    rw [h]; rfl
  simp [poster_main, hfind]

/-- A world whose snapshot fetch fails, used as the C8 witness. -/
def world_no_data : PosterWorld :=
  { tickers := FetchOutcome.fail, fetch := fun _ => none, chart_ok := true,
    dry_env := some "false", real_bot_ok := true,
    post_outcome := PyResult.exn "should never be reached" }

/-- Witness for C8: the failed-fetch world produces no chart write and no
post. -/
theorem poster_main_empty_snapshot_witness :
    get_top_100_symbols world_no_data.tickers = [] ∧
    poster_main world_no_data = (.ok (), []) :=
  ⟨rfl, (poster_main_empty_snapshot world_no_data rfl).1⟩

/-! ## C9 -/

/-- C9: in `bot.py` the dry-run flag is deactivated exactly by the values
`false`/`0`/`no`/`off` case-insensitively, any other value or absence
leaving it active, while `poster.main` treats absence as dry-run inactive;
on explicit values the two entry points agree. -/
theorem dry_run_flag_spec :
    (∀ v : String, is_dry_run (some v) = false ↔
      str_lower v ∈ ["false", "0", "no", "off"]) ∧
    is_dry_run none = true ∧
    poster_dry_run none = false ∧
    (∀ v : String, poster_dry_run (some v) = is_dry_run (some v)) := by
  refine ⟨?_, by decide, by decide, fun v => rfl⟩
  intro v
  simp only [is_dry_run, Option.getD_some, Bool.not_eq_false',
    List.contains, List.elem_eq_mem, decide_eq_true_eq]

/-! ## C5 -/

/-- C5 fails as stated: with dry-run disabled and the posting helper
raising, `bot.main` re-raises the exception instead of returning normally. -/
theorem bot_main_raises_counterexample :
    bot_main (some "false") true (PyResult.exn "ConnectionError")
      (PyResult.ok
        { ok := true, status_code := some 201, text := none,
          body := none, rate := none, error := none }) ≠ PyResult.ok () := by
  decide

/-- C5 amended: `poster.main` returns normally on all paths; `bot.main`
returns normally whenever dry-run is active or the posting call returns
normally, but re-raises an exception of the posting helper when dry-run is
disabled. -/
theorem entry_point_return_spec (w : PosterWorld) (env : Option String)
    (has_real_bot : Bool) (real_post example_post : PyResult PostResult) :
    (poster_main w).1 = PyResult.ok () ∧
    (is_dry_run env = true →
      bot_main env has_real_bot real_post example_post = PyResult.ok ()) ∧
    (∀ res, real_post = PyResult.ok res →
      bot_main env true real_post example_post = PyResult.ok ()) ∧
    (∀ e, is_dry_run env = false → real_post = PyResult.exn e →
      bot_main env true real_post example_post = PyResult.exn e) ∧
    (∀ e, is_dry_run env = false → example_post = PyResult.exn e →
      bot_main env false real_post example_post = PyResult.exn e) := by
  refine ⟨?_, ?_, ?_, ?_, ?_⟩
  · simp only [poster_main]
    cases hfind : find_biggest_green_candle (get_top_100_symbols w.tickers)
        w.fetch with
    | none => rfl
    | some p =>
      cases p with
      | mk winner tweet =>
        dsimp only
        by_cases ht : tweet == ""
        · simp [ht]
        · simp only [ht, Bool.false_eq_true, if_false]
          by_cases hd : poster_dry_run w.dry_env
          · simp [hd]
          · simp only [hd, Bool.false_eq_true, if_false]
            by_cases hrb : w.real_bot_ok
            · simp only [hrb, if_true]
              cases w.post_outcome <;> rfl
            · simp [hrb]
  · intro h
    simp [bot_main, h]
  · intro res hres
    subst hres
    by_cases h : is_dry_run env <;> simp [bot_main, h]
  · intro e h hres
    subst hres
    simp [bot_main, h]
  · intro e h hres
    subst hres
    simp [bot_main, h]

/-- Witness for the amended C5: a concrete dry-run return, a concrete
normal-post return, and a concrete re-raise. -/
theorem entry_point_return_spec_witness :
    (poster_main world_no_data).1 = PyResult.ok () ∧
    (is_dry_run (some "anything") = true ∧
      bot_main (some "anything") true (PyResult.exn "boom")
        (PyResult.exn "boom") = PyResult.ok ()) ∧
    (is_dry_run (some "no") = false ∧
      bot_main (some "no") true (PyResult.exn "boom")
        (PyResult.ok
          { ok := true, status_code := some 201, text := none,
            body := none, rate := none, error := none }) =
        PyResult.exn "boom") :=
  ⟨(entry_point_return_spec world_no_data none true (PyResult.exn "x")
      (PyResult.exn "x")).1,
   ⟨by decide,
    (entry_point_return_spec world_no_data (some "anything") true
      (PyResult.exn "boom") (PyResult.exn "boom")).2.1 (by decide)⟩,
   ⟨by decide,
    (entry_point_return_spec world_no_data (some "no") true
      (PyResult.exn "boom")
      (PyResult.ok
        { ok := true, status_code := some 201, text := none,
          body := none, rate := none, error := none })).2.2.2.1 "boom"
      (by decide) rfl⟩⟩

/-! ## C10 -/

/-- C10: `lambda_handler` is a total function into responses (never
raises); the status code is always 200 or 500, it is 200 when no
winner/tweet is produced or the post succeeds, and 500 when `post_tweet`
reports failure or the body raised. -/
theorem lambda_handler_spec (find_outcome : PyResult (Option (Candidate × String)))
    (post_outcome : HttpOutcome) (body_has_id : Bool) :
    ((lambda_handler find_outcome post_outcome body_has_id).statusCode = 200 ∨
      (lambda_handler find_outcome post_outcome body_has_id).statusCode = 500) ∧
    (find_outcome = PyResult.ok none →
      (lambda_handler find_outcome post_outcome body_has_id).statusCode = 200) ∧
    (∀ w t, find_outcome = PyResult.ok (some (w, t)) → t ≠ "" →
      lambda_post_tweet post_outcome body_has_id = true →
      (lambda_handler find_outcome post_outcome body_has_id).statusCode = 200) ∧
    (∀ w t, find_outcome = PyResult.ok (some (w, t)) → t ≠ "" →
      lambda_post_tweet post_outcome body_has_id = false →
      (lambda_handler find_outcome post_outcome body_has_id).statusCode = 500) ∧
    (∀ e, find_outcome = PyResult.exn e →
      (lambda_handler find_outcome post_outcome body_has_id).statusCode = 500) := by
  refine ⟨?_, ?_, ?_, ?_, ?_⟩
  · cases find_outcome with
    | exn e => simp [lambda_handler, lambda_handler_body]
    | ok o =>
      cases o with
      | none => simp [lambda_handler, lambda_handler_body]
      | some p =>
        cases p with
        | mk winner tweet =>
          by_cases ht : tweet == ""
          · simp [lambda_handler, lambda_handler_body, ht]
          · by_cases hp : lambda_post_tweet post_outcome body_has_id <;>
              simp [lambda_handler, lambda_handler_body, ht, hp]
  · intro h
    subst h
    simp [lambda_handler, lambda_handler_body]
  · intro w t h ht hp
    subst h
    have ht' : (t == "") = false := by simpa using ht
    simp [lambda_handler, lambda_handler_body, ht', hp]
  · intro w t h ht hp
    subst h
    have ht' : (t == "") = false := by simpa using ht
    simp [lambda_handler, lambda_handler_body, ht', hp]
  · intro e h
    subst h
    simp [lambda_handler, lambda_handler_body]

/-- A 201 created response. -/
def r201_example : HttpResponse :=
  { status_code := 201, headers := [], text := "", jsonBody := some "body",
    media_id := none }

/-- Witness for C10 on concrete handler runs: a no-data 200, a posted 200, a
failed-post 500, and an exception 500. -/
theorem lambda_handler_spec_witness :
    ((lambda_handler (PyResult.ok none) (HttpOutcome.exn "net") true).statusCode = 200) ∧
    (cand_w, "tweet").2 ≠ "" ∧
    lambda_post_tweet (HttpOutcome.resp r201_example) true = true ∧
    ((lambda_handler (PyResult.ok (some (cand_w, "tweet")))
      (HttpOutcome.resp r201_example) true).statusCode = 200) ∧
    lambda_post_tweet (HttpOutcome.exn "net") true = false ∧
    ((lambda_handler (PyResult.ok (some (cand_w, "tweet")))
      (HttpOutcome.exn "net") true).statusCode = 500) ∧
    ((lambda_handler (PyResult.exn "KeyError") (HttpOutcome.exn "net")
      true).statusCode = 500) :=
  ⟨(lambda_handler_spec (PyResult.ok none) (HttpOutcome.exn "net") true).2.1 rfl,
   by decide,
   rfl,
   (lambda_handler_spec (PyResult.ok (some (cand_w, "tweet")))
     (HttpOutcome.resp r201_example) true).2.2.1 cand_w "tweet"
     rfl (by decide) rfl,
   rfl,
   (lambda_handler_spec (PyResult.ok (some (cand_w, "tweet")))
     (HttpOutcome.exn "net") true).2.2.2.1 cand_w "tweet" rfl (by decide) rfl,
   (lambda_handler_spec (PyResult.exn "KeyError") (HttpOutcome.exn "net")
     true).2.2.2.2 "KeyError" rfl⟩

end CryptoBot
